import Mathlib

/-!
Shallow embedding of `algobot/interface/other_commands.py` (class
`OtherCommands`), the dialog controller for CSV data export and directory
purging, together with an event-step machine over the dialog state that
models the Qt slot wiring installed by `load_slots`.

External collaborators (the Binance client, the system clock, the user's
answers to message boxes, and the worker signal scheduler) are modelled as
inputs: events carry the values those collaborators deliver.
-/

namespace Algobot

/-- A calendar date, mirroring PyQt's `QDate(year, month, day)`. -/
structure QDate where
  year : Nat
  month : Nat
  day : Nat
deriving DecidableEq, Repr

/-- A UTC datetime, mirroring Python's `datetime` restricted to the fields
the dialog reads (`.year`, `.month`, `.day`). -/
structure UTCDateTime where
  year : Nat
  month : Nat
  day : Nat
  hour : Nat
  minute : Nat
  second : Nat
deriving DecidableEq, Repr

/-- Days since 1970-01-01 to a proleptic-Gregorian civil date
`(year, month, day)`, for nonnegative day counts (timestamps at or after
the epoch, which is the range Binance timestamps live in). This is the
date computation performed by `datetime.fromtimestamp(_, tz=timezone.utc)`. -/
def civilFromDays (days : Nat) : Nat × Nat × Nat :=
  let z := days + 719468
  let era := z / 146097
  let doe := z % 146097
  let yoe := (doe - doe / 1460 + doe / 36524 - doe / 146096) / 365
  let y := yoe + era * 400
  let doy := doe - (365 * yoe + yoe / 4 - yoe / 100)
  let mp := (5 * doy + 2) / 153
  let d := doy - (153 * mp + 2) / 5 + 1
  let m := if mp < 10 then mp + 3 else mp - 9
  (if m ≤ 2 then y + 1 else y, m, d)

/-- `datetime.fromtimestamp(secs, tz=timezone.utc)` for a nonnegative whole
number of seconds since the Unix epoch. -/
def datetime_fromtimestamp_utc (secs : Nat) : UTCDateTime :=
  let ymd := civilFromDays (secs / 86400)
  let rem := secs % 86400
  ⟨ymd.1, ymd.2.1, ymd.2.2, rem / 3600, rem % 3600 / 60, rem % 60⟩

/-- The spec's phrase for claim C6: the UTC calendar date of a Unix time
given in seconds. Written from the spec's words, to be compared with the
source-side `get_start_date_for_csv`. -/
def utcCalendarDate (secs : Nat) : QDate :=
  let ymd := civilFromDays (secs / 86400)
  ⟨ymd.1, ymd.2.1, ymd.2.2⟩

/-- The download worker object (`DownloadThread`), as the dialog sees it:
the constructor arguments it passes and the cooperative-stop flag its
`stop()` method raises. The worker's own behaviour is external to this file. -/
structure DownloadThread where
  interval : String
  symbol : String
  descending : Bool
  armyTime : Bool
  startDate : Option QDate
  stopRequested : Bool
deriving DecidableEq, Repr

/-- Application root directory `helpers.ROOT_DIR`, an external constant;
modelled as an abstract path string. -/
def ROOT_DIR : String := "ROOT_DIR"

/-- `os.path.join` for the two-argument uses in this file. -/
def os_path_join (a b : String) : String := a ++ "/" ++ b

/-- The filesystem is the list of existing paths; `os.path.exists` is
membership. -/
def os_path_exists (fs : List String) (p : String) : Bool := fs.contains p

/-- `shutil.rmtree path`: recursively deletes `path`, i.e. removes `path`
itself and every path lying under it. -/
def shutil_rmtree (fs : List String) (path : String) : List String :=
  fs.filter (fun q => !(q == path || (path ++ "/").isPrefixOf q))

/-- Python's `str.capitalize`: first character uppercased, the rest
lowercased (ASCII suffices for the category names used here). -/
def python_capitalize (s : String) : String :=
  match s.data with
  | [] => ""
  | c :: cs => String.mk (Char.toUpper c :: cs.map Char.toLower)

/-- Modelled from the spec: `helpers.get_logger` is the external "logger
factory" black box; calling it creates a fresh logger, modelled as drawing
the dialog's next unused logger id. -/
def get_logger (fresh : Nat) : Nat := fresh

/-- Modelled from the spec: `helpers.convert_long_interval` is an external
helper (not in this file) mapping the long interval text shown in the
combo box to a short interval code; the spec treats intervals as opaque
strings, so it is modelled as a tagged renaming. -/
def convert_long_interval (s : String) : String := "short:" ++ s

/-- The dialog state of class `OtherCommands`: its Python attributes
(`csvThread`, `setDateThread`, `currentDateList`, `parent.logger`), the
widget state it reads and writes, the filesystem, the last message-box
texts shown, and in-flight worker counts for the thread pool. -/
structure OtherCommands where
  fs : List String
  infoLabel : String
  warningShown : Option String
  confirmShown : Option String
  parentLogger : Nat
  freshLogger : Nat
  csvThread : Option DownloadThread
  setDateThread : Option Unit
  currentDateList : Option (List QDate)
  csvGenerationStatus : String
  csvGenerationProgressBar : Int
  generateCSVButtonEnabled : Bool
  stopButtonEnabled : Bool
  calendarRange : Option (QDate × QDate)
  calendarSelected : QDate
  csvGenerationTicker : String
  csvGenerationDataInterval : String
  descendingDateRadio : Bool
  armyDateRadio : Bool
  openedPath : Option String
  dateInFlight : Nat
  csvInFlight : Nat
deriving DecidableEq, Repr

/-- `OtherCommands.purge(directory)`. The user's answer to the
confirmation box is an input (`answer`; `true` is Yes). `QMessageBox.about`
is recorded in `warningShown`, `QMessageBox.question` in `confirmShown`. -/
def purge (s : OtherCommands) (directory : String) (answer : Bool) : OtherCommands :=
  let path := os_path_join ROOT_DIR directory
  if !(os_path_exists s.fs path) then
    { s with warningShown := some ("No " ++ directory.toLower ++ " files detected.") }
  else
    let message := "Are you sure you want to delete your " ++ directory.toLower ++
      " files? You might not be able to undo this operation. \n\nThe following path will be deleted: \n" ++ path
    let s1 := { s with confirmShown := some message }
    if answer && os_path_exists s1.fs path then
      let s2 := { s1 with
        fs := shutil_rmtree s1.fs path,
        infoLabel := python_capitalize directory ++ " files have been successfully deleted." }
      if directory == "Logs" then
        { s2 with parentLogger := get_logger s2.freshLogger, freshLogger := s2.freshLogger + 1 }
      else s2
    else s1

/-- `OtherCommands.start_date_thread`: resets status and progress, creates
the date-lookup `Worker`, stores it in `setDateThread` and hands it to the
thread pool (one more date worker in flight). -/
def start_date_thread (s : OtherCommands) : OtherCommands :=
  { s with
    csvGenerationStatus := "Searching for earliest start date..",
    csvGenerationProgressBar := 0,
    setDateThread := some (),
    dateInFlight := s.dateInFlight + 1 }

/-- `OtherCommands.get_start_date_for_csv`, run inside the date worker.
The earliest-valid millisecond timestamp `ts` comes from the external
Binance client and `today` from the system clock, so both are inputs.
`int(ts) / 1000` feeds `datetime.fromtimestamp` with UTC timezone. -/
def get_start_date_for_csv (ts : Nat) (today : QDate) : List QDate :=
  let startDate := datetime_fromtimestamp_utc (ts / 1000)
  let qStart : QDate := ⟨startDate.year, startDate.month, startDate.day⟩
  [qStart, today]

/-- `OtherCommands.set_start_date_for_csv(startEndList)`: stores the list,
installs it as the calendar's date range (`setDateRange(*startEndList)`
needs exactly two elements, hence the `Option`), selects the first date,
and re-enables the generate button. -/
def set_start_date_for_csv (s : OtherCommands) (startEndList : List QDate) :
    Option OtherCommands :=
  match startEndList with
  | [qStart, qEnd] =>
    some { s with
      currentDateList := some [qStart, qEnd],
      calendarRange := some (qStart, qEnd),
      calendarSelected := qStart,
      csvGenerationStatus := "Setup filtered date successfully.",
      generateCSVButtonEnabled := true }
  | _ => none

/-- `OtherCommands.error_handle_for_csv_start_date(error_message)`. -/
def error_handle_for_csv_start_date (s : OtherCommands) (error_message : String) :
    OtherCommands :=
  { s with
    csvGenerationStatus := error_message,
    generateCSVButtonEnabled := false }

/-- `OtherCommands.initiate_csv_generation`. `none` models the uncaught
exception raised by `self.currentDateList[0]` when `currentDateList` is
absent (or empty); it occurs before any state mutation, so the dialog
state is unchanged in that case. -/
def initiate_csv_generation (s : OtherCommands) : Option OtherCommands :=
  let symbol := s.csvGenerationTicker
  let descending := s.descendingDateRadio
  let armyTime := s.armyDateRadio
  let interval := convert_long_interval s.csvGenerationDataInterval
  let selectedDate := s.calendarSelected
  match s.currentDateList with
  | none => none
  | some l =>
    match l.head? with
    | none => none
    | some first =>
      let startDate := if selectedDate = first then none else some selectedDate
      let thread : DownloadThread :=
        { interval, symbol, descending, armyTime, startDate, stopRequested := false }
      some { s with
        csvGenerationStatus := "Downloading data...",
        csvThread := some thread,
        csvInFlight := s.csvInFlight + 1 }

/-- `OtherCommands.progress_update(progress, message)`. -/
def progress_update (s : OtherCommands) (progress : Int) (message : String) :
    OtherCommands :=
  { s with
    csvGenerationProgressBar := progress,
    csvGenerationStatus := message }

/-- `OtherCommands.end_csv_generation(savedPath)`. The success pop-up's
Open/Close choice is an input; Open calls the external
`helpers.open_file_or_folder`, recorded in `openedPath`. -/
def end_csv_generation (s : OtherCommands) (savedPath : String) (openChoice : Bool) :
    OtherCommands :=
  let msg := "Successfully saved CSV data to " ++ savedPath ++ "."
  let s1 := { s with
    csvGenerationStatus := msg,
    csvGenerationProgressBar := 100,
    generateCSVButtonEnabled := true }
  if openChoice then { s1 with openedPath := some savedPath } else s1

/-- `OtherCommands.disable_csv_state`. -/
def disable_csv_state (s : OtherCommands) : OtherCommands :=
  { s with generateCSVButtonEnabled := false, stopButtonEnabled := true }

/-- `OtherCommands.restore_csv_state`. -/
def restore_csv_state (s : OtherCommands) : OtherCommands :=
  { s with
    generateCSVButtonEnabled := true,
    stopButtonEnabled := false,
    csvThread := none }

/-- `OtherCommands.stop_csv_generation`: if a download worker reference is
present, set the canceling label and signal the worker to stop; otherwise
do nothing. -/
def stop_csv_generation (s : OtherCommands) : OtherCommands :=
  match s.csvThread with
  | some w =>
    { s with
      csvGenerationStatus := "Canceling download...",
      csvThread := some { w with stopRequested := true } }
  | none => s

/-- `OtherCommands.handle_csv_generation_error(e)`. -/
def handle_csv_generation_error (s : OtherCommands) (e : String) : OtherCommands :=
  { s with csvGenerationStatus := "Download failed because of error: " ++ e }

/-- The dialog events: user gestures on widgets wired by `load_slots`, and
signal deliveries from the two worker kinds. Signal payloads (timestamps,
clock readings, error strings, saved paths, pop-up answers) are carried by
the events, since they come from outside the dialog. -/
inductive Event where
  | editingFinished
  | dateStarted
  | dateFinished (ts : Nat) (today : QDate)
  | dateError (msg : String)
  | generateClicked
  | csvStarted
  | csvLocked
  | csvProgress (progress : Int) (message : String)
  | csvFinished (savedPath : String) (openChoice : Bool)
  | csvError (msg : String)
  | csvRestore
  | stopClicked
  | purgeClicked (directory : String) (answer : Bool)
  | selectDate (d : QDate)
  | editTicker (t : String)
deriving DecidableEq, Repr

/-- The six logical category names wired to purge buttons in `load_slots`. -/
def wiredCategories : List String :=
  ["Logs", "Databases", "Backtest Results", "Configuration", "Credentials", "CSV"]

/-- Which events can fire in a given state: clicks require the button to be
enabled, worker signals require a worker of that kind in flight, the
ticker line edit and the calendar are never disabled, and only the six
wired purge buttons exist. -/
def validEvent (s : OtherCommands) : Event → Bool
  | .editingFinished => true
  | .dateStarted => decide (0 < s.dateInFlight)
  | .dateFinished _ _ => decide (0 < s.dateInFlight)
  | .dateError _ => decide (0 < s.dateInFlight)
  | .generateClicked => s.generateCSVButtonEnabled
  | .csvStarted => decide (0 < s.csvInFlight)
  | .csvLocked => decide (0 < s.csvInFlight)
  | .csvProgress _ _ => decide (0 < s.csvInFlight)
  | .csvFinished _ _ => decide (0 < s.csvInFlight)
  | .csvError _ => decide (0 < s.csvInFlight)
  | .csvRestore => decide (0 < s.csvInFlight)
  | .stopClicked => s.stopButtonEnabled
  | .purgeClicked d _ => wiredCategories.contains d
  | .selectDate _ => true
  | .editTicker _ => true

/-- One dialog step: dispatch an event to the slot `load_slots` (or the
worker-signal `connect` calls) wires it to. A date worker leaves flight
when its finished or error signal is delivered; a download worker leaves
flight when its restore signal is delivered. -/
def step (s : OtherCommands) : Event → OtherCommands
  | .editingFinished => start_date_thread s
  | .dateStarted => { s with generateCSVButtonEnabled := false }
  | .dateFinished ts today =>
    let s1 := { s with dateInFlight := s.dateInFlight - 1 }
    (set_start_date_for_csv s1 (get_start_date_for_csv ts today)).getD s1
  | .dateError msg =>
    error_handle_for_csv_start_date { s with dateInFlight := s.dateInFlight - 1 } msg
  | .generateClicked => (initiate_csv_generation s).getD s
  | .csvStarted => disable_csv_state s
  | .csvLocked => { s with stopButtonEnabled := false }
  | .csvProgress p m => progress_update s p m
  | .csvFinished path choice => end_csv_generation s path choice
  | .csvError msg => handle_csv_generation_error s msg
  | .csvRestore => restore_csv_state { s with csvInFlight := s.csvInFlight - 1 }
  | .stopClicked => stop_csv_generation s
  | .purgeClicked dir ans => purge s dir ans
  | .selectDate d => { s with calendarSelected := d }
  | .editTicker t => { s with csvGenerationTicker := t }

/-- A concrete post-`__init__` dialog state: `csvThread`, `setDateThread`
and `currentDateList` are `None` and no worker is in flight, as set by the
constructor; widget defaults (loaded from the `.ui` file, outside this
repository) are fixed arbitrarily. -/
def initialState : OtherCommands where
  fs := [os_path_join ROOT_DIR "Logs", os_path_join ROOT_DIR "CSV"]
  infoLabel := ""
  warningShown := none
  confirmShown := none
  parentLogger := 0
  freshLogger := 1
  csvThread := none
  setDateThread := none
  currentDateList := none
  csvGenerationStatus := ""
  csvGenerationProgressBar := 0
  generateCSVButtonEnabled := false
  stopButtonEnabled := false
  calendarRange := none
  calendarSelected := ⟨2021, 1, 1⟩
  csvGenerationTicker := "BTCUSDT"
  csvGenerationDataInterval := "1 Hour"
  descendingDateRadio := false
  armyDateRadio := false
  openedPath := none
  dateInFlight := 0
  csvInFlight := 0

/-- States reachable from `s0` through valid dialog events. -/
inductive Reachable (s0 : OtherCommands) : OtherCommands → Prop where
  | refl : Reachable s0 s0
  | tail {s : OtherCommands} (e : Event) :
      Reachable s0 s → validEvent s e = true → Reachable s0 (step s e)

/-! ## Theorems -/

/-- After `shutil.rmtree path`, the path itself no longer exists. -/
theorem not_mem_rmtree_self (fs : List String) (path : String) :
    path ∉ shutil_rmtree fs path := by
  intro hm
  have h2 := (List.mem_filter.mp hm).2
  simp at h2

theorem os_path_exists_rmtree_self (fs : List String) (path : String) :
    os_path_exists (shutil_rmtree fs path) path = false := by
  rw [Bool.eq_false_iff]
  intro hc
  exact not_mem_rmtree_self fs path (List.elem_iff.mp hc)

/-- Claim C1: for each of the six wired categories, if the resolved path
exists and the user answers Yes to the confirmation prompt, `purge`
recursively deletes the resolved path — afterwards the target directory no
longer exists — and reports success by setting the info label to the
success message. -/
theorem c1_purge_confirmed_deletes (s : OtherCommands) (directory : String)
    (_hwired : directory ∈ wiredCategories)
    (hex : os_path_exists s.fs (os_path_join ROOT_DIR directory) = true) :
    os_path_exists (purge s directory true).fs (os_path_join ROOT_DIR directory) = false ∧
    (purge s directory true).infoLabel =
      python_capitalize directory ++ " files have been successfully deleted." := by
  unfold purge
  simp only [hex, Bool.not_true, Bool.false_eq_true, if_false, Bool.true_and, if_true]
  split
  · exact ⟨os_path_exists_rmtree_self s.fs _, rfl⟩
  · exact ⟨os_path_exists_rmtree_self s.fs _, rfl⟩

/-- Witness for C1 at the category `Logs` on a concrete state whose
filesystem holds the Logs directory. -/
theorem c1_purge_confirmed_deletes_witness :
    ("Logs" ∈ wiredCategories ∧
      os_path_exists initialState.fs (os_path_join ROOT_DIR "Logs") = true) ∧
    (os_path_exists (purge initialState "Logs" true).fs
        (os_path_join ROOT_DIR "Logs") = false ∧
      (purge initialState "Logs" true).infoLabel =
        python_capitalize "Logs" ++ " files have been successfully deleted.") :=
  ⟨⟨by decide, by decide⟩,
    c1_purge_confirmed_deletes initialState "Logs" (by decide) (by decide)⟩

/-- Claim C2: if the resolved path does not exist, `purge` shows the
warning box and changes nothing else — no confirmation prompt, no
deletion, no info-label update, no logger change. -/
theorem c2_purge_missing_warns (s : OtherCommands) (directory : String) (answer : Bool)
    (hne : os_path_exists s.fs (os_path_join ROOT_DIR directory) = false) :
    purge s directory answer =
      { s with warningShown := some ("No " ++ directory.toLower ++ " files detected.") } := by
  unfold purge
  simp [hne]

/-- Witness for C2: `Databases` does not exist in the concrete state. -/
theorem c2_purge_missing_warns_witness :
    purge initialState "Databases" true =
      { initialState with
        warningShown := some ("No " ++ "Databases".toLower ++ " files detected.") } :=
  c2_purge_missing_warns initialState "Databases" true (by decide)

/-- Claim C9: a confirmed purge replaces the parent window's logger with a
freshly created logger exactly when the category is `Logs`; every other
category leaves the logger unchanged. -/
theorem c9_purge_logger_replacement (s : OtherCommands) (directory : String)
    (hex : os_path_exists s.fs (os_path_join ROOT_DIR directory) = true) :
    (purge s directory true).parentLogger =
      (if directory = "Logs" then get_logger s.freshLogger else s.parentLogger) := by
  unfold purge
  simp only [hex, Bool.not_true, Bool.false_eq_true, if_false, Bool.true_and, if_true]
  by_cases h : directory = "Logs"
  · simp [h, get_logger]
  · simp [h, beq_iff_eq]

/-- Witness for C9 at both a `Logs` purge and a `CSV` purge on the
concrete state. -/
theorem c9_purge_logger_replacement_witness :
    ((purge initialState "Logs" true).parentLogger =
      (if "Logs" = "Logs" then get_logger initialState.freshLogger
        else initialState.parentLogger)) ∧
    ((purge initialState "CSV" true).parentLogger =
      (if "CSV" = "Logs" then get_logger initialState.freshLogger
        else initialState.parentLogger)) :=
  ⟨c9_purge_logger_replacement initialState "Logs" (by decide),
    c9_purge_logger_replacement initialState "CSV" (by decide)⟩

/-- Sanity checks for the civil-date conversion used by the date worker:
the Unix epoch, a mid-2017 timestamp, and a leap day. -/
theorem utcCalendarDate_examples :
    utcCalendarDate 0 = ⟨1970, 1, 1⟩ ∧
    utcCalendarDate 1500000000 = ⟨2017, 7, 14⟩ ∧
    utcCalendarDate 951782400 = ⟨2000, 2, 29⟩ := by
  refine ⟨?_, ?_, ?_⟩ <;> rfl

/-- Claim C3 counterexample: the CSV-download worker's error callback does
not set the status label to the delivered string verbatim — it prepends
"Download failed because of error: ". -/
theorem c3_error_not_verbatim_counterexample :
    (handle_csv_generation_error initialState "x").csvGenerationStatus ≠ "x" ∧
    (handle_csv_generation_error initialState "x").csvGenerationStatus =
      "Download failed because of error: x" := by
  exact ⟨by decide, rfl⟩

/-- Claim C3 as amended: the date-lookup worker's error callback sets the
status label to the delivered string verbatim, while the CSV-download
worker's error callback sets it to the delivered string with the prefix
"Download failed because of error: " prepended. -/
theorem c3_error_labels_amended (s : OtherCommands) (msg : String) :
    (error_handle_for_csv_start_date s msg).csvGenerationStatus = msg ∧
    (handle_csv_generation_error s msg).csvGenerationStatus =
      "Download failed because of error: " ++ msg :=
  ⟨rfl, rfl⟩

/-- Claim C6: the date-lookup task converts the earliest-valid millisecond
timestamp into the range `[start, end]` where `start` is the UTC calendar
date of `timestamp / 1000` as a Unix time and `end` is the current UTC
date; on success the range is stored, installed as the calendar's date
range, and the start date is selected. -/
theorem c6_date_range_conversion (s : OtherCommands) (ts : Nat) (today : QDate) :
    get_start_date_for_csv ts today = [utcCalendarDate (ts / 1000), today] ∧
    ∃ s1, set_start_date_for_csv s (get_start_date_for_csv ts today) = some s1 ∧
      s1.currentDateList = some [utcCalendarDate (ts / 1000), today] ∧
      s1.calendarRange = some (utcCalendarDate (ts / 1000), today) ∧
      s1.calendarSelected = utcCalendarDate (ts / 1000) := by
  refine ⟨rfl, ?_⟩
  exact ⟨_, rfl, rfl, rfl, rfl⟩

/-- Claim C7: a progress callback sets the progress bar to exactly the
delivered progress value and the status label to exactly the delivered
message; the completion callback reports the saved path in the status
label, sets the progress bar to 100, and re-enables the generate button. -/
theorem c7_progress_and_completion (s : OtherCommands) (p : Int) (m : String)
    (savedPath : String) (openChoice : Bool) :
    (progress_update s p m).csvGenerationProgressBar = p ∧
    (progress_update s p m).csvGenerationStatus = m ∧
    (end_csv_generation s savedPath openChoice).csvGenerationStatus =
      "Successfully saved CSV data to " ++ savedPath ++ "." ∧
    (end_csv_generation s savedPath openChoice).csvGenerationProgressBar = 100 ∧
    (end_csv_generation s savedPath openChoice).generateCSVButtonEnabled = true := by
  unfold progress_update end_csv_generation
  cases openChoice <;> exact ⟨rfl, rfl, rfl, rfl, rfl⟩

/-- Claim C8: pressing stop while a download worker reference is present
sets the canceling label and signals that worker to stop; pressing stop
with no worker reference changes nothing at all. -/
theorem c8_stop_button (s : OtherCommands) :
    (∀ w, s.csvThread = some w →
      stop_csv_generation s =
        { s with
          csvGenerationStatus := "Canceling download...",
          csvThread := some { w with stopRequested := true } }) ∧
    (s.csvThread = none → stop_csv_generation s = s) := by
  constructor
  · intro w hw
    unfold stop_csv_generation
    rw [hw]
  · intro h
    unfold stop_csv_generation
    rw [h]

/-- Witness for C8: on the concrete post-constructor state no worker
reference is present, and stop is a no-op; with a concrete worker stored,
stop raises its flag and sets the canceling label. -/
theorem c8_stop_button_witness :
    stop_csv_generation initialState = initialState ∧
    stop_csv_generation
        { initialState with
          csvThread := some ⟨"short:1 Hour", "BTCUSDT", false, false, none, false⟩ } =
      { initialState with
        csvGenerationStatus := "Canceling download...",
        csvThread := some ⟨"short:1 Hour", "BTCUSDT", false, false, none, true⟩ } :=
  ⟨(c8_stop_button initialState).2 rfl,
    (c8_stop_button
        { initialState with
          csvThread := some ⟨"short:1 Hour", "BTCUSDT", false, false, none, false⟩ }).1
      ⟨"short:1 Hour", "BTCUSDT", false, false, none, false⟩ rfl⟩

/-- Claim C10: with a stored date list present, the start date handed to
the download worker is `none` exactly when the calendar's selected date
equals the first element of the stored list, and the selected date
otherwise; initiating generation with no stored date list dereferences the
absent list (an uncaught exception, modelled as `none`). -/
theorem c10_start_date_choice (s : OtherCommands) :
    (s.currentDateList = none → initiate_csv_generation s = none) ∧
    (∀ l first, s.currentDateList = some l → l.head? = some first →
      ∃ s1 w, initiate_csv_generation s = some s1 ∧ s1.csvThread = some w ∧
        w.startDate =
          (if s.calendarSelected = first then none else some s.calendarSelected)) := by
  constructor
  · intro h
    unfold initiate_csv_generation
    rw [h]
  · intro l first hl hfirst
    unfold initiate_csv_generation
    rw [hl]
    cases l with
    | nil => simp at hfirst
    | cons a t =>
      have ha : a = first := by simpa using hfirst
      subst ha
      exact ⟨_, _, rfl, rfl, rfl⟩

/-- Witness for C10: before any date lookup the concrete state has no
stored list and initiation aborts; with a concrete two-element list
stored and the second date selected, the worker receives that date. -/
theorem c10_start_date_choice_witness :
    initiate_csv_generation initialState = none ∧
    ∃ s1 w,
      initiate_csv_generation
          { initialState with
            currentDateList := some [⟨2020, 1, 1⟩, ⟨2021, 1, 1⟩],
            calendarSelected := ⟨2021, 1, 1⟩ } = some s1 ∧
      s1.csvThread = some w ∧
      w.startDate =
        (if (⟨2021, 1, 1⟩ : QDate) = ⟨2020, 1, 1⟩ then none
          else some (⟨2021, 1, 1⟩ : QDate)) :=
  ⟨(c10_start_date_choice initialState).1 rfl,
    (c10_start_date_choice
        { initialState with
          currentDateList := some [⟨2020, 1, 1⟩, ⟨2021, 1, 1⟩],
          calendarSelected := ⟨2021, 1, 1⟩ }).2
      [⟨2020, 1, 1⟩, ⟨2021, 1, 1⟩] ⟨2020, 1, 1⟩ rfl rfl⟩

/-- `purge` never touches the worker references or the in-flight counts. -/
theorem purge_frame (s : OtherCommands) (d : String) (a : Bool) :
    (purge s d a).setDateThread = s.setDateThread ∧
    (purge s d a).dateInFlight = s.dateInFlight ∧
    (purge s d a).csvInFlight = s.csvInFlight := by
  unfold purge
  dsimp only
  split
  · exact ⟨rfl, rfl, rfl⟩
  · split
    · split
      · exact ⟨rfl, rfl, rfl⟩
      · exact ⟨rfl, rfl, rfl⟩
    · exact ⟨rfl, rfl, rfl⟩

/-- `stop_csv_generation` never touches the worker counts or the
date-worker reference. -/
theorem stop_frame (s : OtherCommands) :
    (stop_csv_generation s).setDateThread = s.setDateThread ∧
    (stop_csv_generation s).dateInFlight = s.dateInFlight ∧
    (stop_csv_generation s).csvInFlight = s.csvInFlight := by
  unfold stop_csv_generation
  cases s.csvThread
  · exact ⟨rfl, rfl, rfl⟩
  · exact ⟨rfl, rfl, rfl⟩

/-- Claim C4 counterexample: after a date lookup completes (start the date
worker, then deliver its finished signal, leaving no date worker in
flight), the dialog still holds the `setDateThread` reference — the stored
reference is not cleared when the task completes. -/
theorem c4_setDateThread_not_cleared_counterexample :
    Reachable initialState
      (step (step initialState Event.editingFinished)
        (Event.dateFinished 0 ⟨2021, 1, 1⟩)) ∧
    (step (step initialState Event.editingFinished)
        (Event.dateFinished 0 ⟨2021, 1, 1⟩)).dateInFlight = 0 ∧
    (step (step initialState Event.editingFinished)
        (Event.dateFinished 0 ⟨2021, 1, 1⟩)).setDateThread ≠ none ∧
    ¬ (∀ s, Reachable initialState s →
        s.dateInFlight = 0 → s.setDateThread = none) := by
  refine ⟨?_, rfl, by decide, ?_⟩
  · exact Reachable.tail (Event.dateFinished 0 ⟨2021, 1, 1⟩)
      (Reachable.tail Event.editingFinished Reachable.refl (by decide)) (by decide)
  · intro h
    have h2 := h
      (step (step initialState Event.editingFinished) (Event.dateFinished 0 ⟨2021, 1, 1⟩))
      (Reachable.tail (Event.dateFinished 0 ⟨2021, 1, 1⟩)
        (Reachable.tail Event.editingFinished Reachable.refl (by decide)) (by decide))
      rfl
    exact absurd h2 (by decide)

/-- Claim C4 as amended: the download-worker reference `csvThread` is
cleared when the worker's restore signal fires (`restore_csv_state`); the
date-worker reference `setDateThread`, once set, is never cleared by any
dialog event — its presence only grows, and only `editingFinished` sets it. -/
theorem c4_worker_refs_amended (s : OtherCommands) (e : Event) :
    (restore_csv_state s).csvThread = none ∧
    (step s e).setDateThread.isSome =
      (s.setDateThread.isSome ||
        (match e with | Event.editingFinished => true | _ => false)) := by
  refine ⟨rfl, ?_⟩
  cases e with
  | editingFinished => simp [step, start_date_thread]
  | dateStarted => simp [step]
  | dateFinished ts today =>
    simp [step, get_start_date_for_csv, set_start_date_for_csv]
  | dateError msg => simp [step, error_handle_for_csv_start_date]
  | generateClicked =>
    unfold step initiate_csv_generation
    cases s.currentDateList with
    | none => simp
    | some l =>
      cases l with
      | nil => simp
      | cons a t => simp
  | csvStarted => simp [step, disable_csv_state]
  | csvLocked => simp [step]
  | csvProgress p m => simp [step, progress_update]
  | csvFinished path choice =>
    unfold step end_csv_generation
    cases choice <;> simp
  | csvError msg => simp [step, handle_csv_generation_error]
  | csvRestore => simp [step, restore_csv_state]
  | stopClicked =>
    have := (stop_frame s).1
    simp only [step, this, Bool.or_false]
  | purgeClicked dir ans =>
    have := (purge_frame s dir ans).1
    simp only [step, this, Bool.or_false]
  | selectDate d => simp [step]
  | editTicker t => simp [step]

/-- Claim C5 counterexample: the ticker line edit's `editingFinished`
signal is never gated, so two consecutive `editingFinished` events put two
date-lookup workers in flight at once — the dialog's sequencing does not
restrict in-flight workers to one per kind. -/
theorem c5_single_worker_counterexample :
    Reachable initialState
      (step (step initialState Event.editingFinished) Event.editingFinished) ∧
    (step (step initialState Event.editingFinished) Event.editingFinished).dateInFlight
      = 2 ∧
    ¬ (∀ s, Reachable initialState s → s.dateInFlight ≤ 1 ∧ s.csvInFlight ≤ 1) := by
  refine ⟨?_, rfl, ?_⟩
  · exact Reachable.tail Event.editingFinished
      (Reachable.tail Event.editingFinished Reachable.refl rfl) rfl
  · intro h
    have h2 := (h (step (step initialState Event.editingFinished) Event.editingFinished)
      (Reachable.tail Event.editingFinished
        (Reachable.tail Event.editingFinished Reachable.refl rfl) rfl)).1
    have h3 : (step (step initialState Event.editingFinished)
        Event.editingFinished).dateInFlight = 2 := rfl
    omega

/-- Claim C5 as amended: each worker kind is started only by its own
trigger — a dialog event puts at most one new date-lookup worker in flight
and only when it is `editingFinished`, and at most one new download worker
and only when it is `generateClicked` — but no event sequencing bounds the
total in flight to one per kind. -/
theorem c5_worker_start_triggers_amended (s : OtherCommands) (e : Event) :
    (step s e).dateInFlight ≤
      s.dateInFlight + (match e with | Event.editingFinished => 1 | _ => 0) ∧
    (step s e).csvInFlight ≤
      s.csvInFlight + (match e with | Event.generateClicked => 1 | _ => 0) := by
  cases e with
  | editingFinished => simp [step, start_date_thread]
  | dateStarted => simp [step]
  | dateFinished ts today =>
    refine ⟨?_, ?_⟩ <;>
      simp [step, get_start_date_for_csv, set_start_date_for_csv]
  | dateError msg =>
    refine ⟨?_, ?_⟩ <;> simp [step, error_handle_for_csv_start_date]
  | generateClicked =>
    unfold step initiate_csv_generation
    cases s.currentDateList with
    | none => simp
    | some l =>
      cases l with
      | nil => simp
      | cons a t => simp
  | csvStarted => simp [step, disable_csv_state]
  | csvLocked => simp [step]
  | csvProgress p m => simp [step, progress_update]
  | csvFinished path choice =>
    unfold step end_csv_generation
    cases choice <;> simp
  | csvError msg => simp [step, handle_csv_generation_error]
  | csvRestore =>
    refine ⟨?_, ?_⟩ <;> simp [step, restore_csv_state]
  | stopClicked =>
    refine ⟨?_, ?_⟩
    · show (stop_csv_generation s).dateInFlight ≤ s.dateInFlight + 0
      rw [(stop_frame s).2.1]
      omega
    · show (stop_csv_generation s).csvInFlight ≤ s.csvInFlight + 0
      rw [(stop_frame s).2.2]
      omega
  | purgeClicked dir ans =>
    refine ⟨?_, ?_⟩
    · show (purge s dir ans).dateInFlight ≤ s.dateInFlight + 0
      rw [(purge_frame s dir ans).2.1]
      omega
    · show (purge s dir ans).csvInFlight ≤ s.csvInFlight + 0
      rw [(purge_frame s dir ans).2.2]
      omega
  | selectDate d => simp [step]
  | editTicker t => simp [step]

end Algobot
